import Mathlib

/-!
Verification of the radar-visualization node (`scripts/radar_visualization.py`).

The geometric core of the node is embedded shallowly over the real numbers:
numpy 3-vectors and 3x3 matrices become the `Vec3` and `Mat3` structures
below, the callbacks become pure state-transformers on an explicit `Store`,
and drawing becomes the list of `cv2.line` commands issued.  Floating-point
arithmetic is idealized as real arithmetic; `numpy.astype(int)` is modelled
as truncation toward zero (`truncInt`).
-/

/-- A 3-vector, mirroring the one-column `np.matrix` values of the script. -/
structure Vec3 where
  x : ℝ
  y : ℝ
  z : ℝ

instance : Add Vec3 := ⟨fun a b => ⟨a.x + b.x, a.y + b.y, a.z + b.z⟩⟩

@[simp] lemma Vec3.add_def (a b : Vec3) :
    a + b = ⟨a.x + b.x, a.y + b.y, a.z + b.z⟩ := rfl

/-- A 3x3 matrix with explicit entries, mirroring `np.matrix` 3x3 values. -/
structure Mat3 where
  m11 : ℝ
  m12 : ℝ
  m13 : ℝ
  m21 : ℝ
  m22 : ℝ
  m23 : ℝ
  m31 : ℝ
  m32 : ℝ
  m33 : ℝ

/-- Matrix product, as numpy `*` on `np.matrix`. -/
def Mat3.mul (A B : Mat3) : Mat3 :=
  ⟨A.m11 * B.m11 + A.m12 * B.m21 + A.m13 * B.m31,
   A.m11 * B.m12 + A.m12 * B.m22 + A.m13 * B.m32,
   A.m11 * B.m13 + A.m12 * B.m23 + A.m13 * B.m33,
   A.m21 * B.m11 + A.m22 * B.m21 + A.m23 * B.m31,
   A.m21 * B.m12 + A.m22 * B.m22 + A.m23 * B.m32,
   A.m21 * B.m13 + A.m22 * B.m23 + A.m23 * B.m33,
   A.m31 * B.m11 + A.m32 * B.m21 + A.m33 * B.m31,
   A.m31 * B.m12 + A.m32 * B.m22 + A.m33 * B.m32,
   A.m31 * B.m13 + A.m32 * B.m23 + A.m33 * B.m33⟩

/-- Matrix-vector product (numpy `M * v` with a column vector `v`). -/
def Mat3.mulVec (A : Mat3) (v : Vec3) : Vec3 :=
  ⟨A.m11 * v.x + A.m12 * v.y + A.m13 * v.z,
   A.m21 * v.x + A.m22 * v.y + A.m23 * v.z,
   A.m31 * v.x + A.m32 * v.y + A.m33 * v.z⟩

/-- Matrix transpose (numpy `.T`). -/
def Mat3.transpose (A : Mat3) : Mat3 :=
  ⟨A.m11, A.m21, A.m31, A.m12, A.m22, A.m32, A.m13, A.m23, A.m33⟩

/-- `RadarVizNode.rotationMatrix(rot_x, rot_y, rot_z)` (source lines 156-168):
elementary rotations `Rxx`, `Ryy`, `Rzz` multiplied as `Rzz*Ryy*Rxx`
(numpy `*` is left-associative, so `(Rzz*Ryy)*Rxx`). -/
noncomputable def rotationMatrix (rot_x rot_y rot_z : ℝ) : Mat3 :=
  let sx := Real.sin rot_x
  let sy := Real.sin rot_y
  let sz := Real.sin rot_z
  let cx := Real.cos rot_x
  let cy := Real.cos rot_y
  let cz := Real.cos rot_z
  let Rxx : Mat3 := ⟨1, 0, 0, 0, cx, -sx, 0, sx, cx⟩
  let Ryy : Mat3 := ⟨cy, 0, sy, 0, 1, 0, -sy, 0, cy⟩
  let Rzz : Mat3 := ⟨cz, -sz, 0, sz, cz, 0, 0, 0, 1⟩
  (Rzz.mul Ryy).mul Rxx

/-- The static node configuration: visualization and extrinsic parameters
read once in `__init__` (source lines 24-36). -/
structure Config where
  boxWidth : ℝ
  lineWidth : ℕ
  camPitch : ℝ
  camYaw : ℝ
  camHeight : ℝ
  camLongOffset : ℝ
  camLatOffset : ℝ

/-- The hardcoded intrinsic matrix `self.Mint` (source lines 59-61). -/
noncomputable def Mint : Mat3 :=
  ⟨941.087953, 0, 624.481729,
   0, 942.665887, 382.681338,
   0, 0, 1⟩

/-- `numpy.astype(int)` on a float: truncation toward zero. -/
noncomputable def truncInt (x : ℝ) : ℤ :=
  if 0 ≤ x then ⌊x⌋ else ⌈x⌉

/-- `r_cs_s`, the camera-to-radar position vector resolved in the sensor
frame (source line 135). -/
def camToSensor (cfg : Config) : Vec3 :=
  ⟨cfg.camLongOffset, cfg.camLatOffset, cfg.camHeight⟩

/-- `Ccs`, the camera-to-sensor mounting rotation (source line 137). -/
noncomputable def camRotationCcs (cfg : Config) : Mat3 :=
  rotationMatrix 0 cfg.camPitch cfg.camYaw

/-- `r_cp_c`, the camera-to-point vector resolved in the camera frame
(source lines 138-142): `Csc * (r_cs_s + r_sp_s)` with `Csc = Ccs.T`. -/
noncomputable def camToPointCam (cfg : Config) (p : Vec3) : Vec3 :=
  (camRotationCcs cfg).transpose.mulVec (camToSensor cfg + p)

/-- The camera-frame forward coordinate `r_cp_c[0]` tested by the
visibility guard (source line 146). -/
noncomputable def camForward (cfg : Config) (p : Vec3) : ℝ :=
  (camToPointCam cfg p).x

/-- `Rcc`, the fixed axis-convention rotation (source line 144). -/
noncomputable def Rcc : Mat3 :=
  rotationMatrix (-(Real.pi / 2)) (-(Real.pi / 2)) 0

/-- `x_ = self.Mint*Rcc*r_cp_c` (source line 149); numpy `*` is
left-associative, so `(Mint*Rcc)*r_cp_c`. -/
noncomputable def projVec (cfg : Config) (p : Vec3) : Vec3 :=
  (Mint.mul Rcc).mulVec (camToPointCam cfg p)

/-- `RadarVizNode.getCameraProjection` (source lines 133-154): returns the
truncated pixel pair, or `none` for the `(None, None)` non-visible sentinel
when `r_cp_c[0] < 0`.  (In the script a zero third component `x_[2]` leads
to a float division by zero producing non-finite values; the embedding's
real division returns 0 there.  Claims about that case are stated in terms
of the divisor `(projVec cfg p).z` itself.) -/
noncomputable def getCameraProjection (cfg : Config) (p : Vec3) :
    Option (ℤ × ℤ) :=
  if camForward cfg p < 0 then none
  else
    some (truncInt ((projVec cfg p).x / (projVec cfg p).z),
          truncInt ((projVec cfg p).y / (projVec cfg p).z))

/-- `RadarVizNode.getBoxPoints(r, ang)` (source lines 120-131): the four
columns of `boxPoints + deltas`, i.e. the detection position vector
`(r*cos(ang), r*sin(ang), 0)` plus the per-column offsets
`(0,+d,+d), (0,+d,-d), (0,-d,-d), (0,-d,+d)` with `d = boxWidth*0.5`. -/
noncomputable def getBoxPoints (cfg : Config) (r ang : ℝ) : Fin 4 → Vec3 :=
  let p : Vec3 := ⟨r * Real.cos ang, r * Real.sin ang, 0⟩
  let dlt := cfg.boxWidth * 0.5
  fun i =>
    match i with
    | 0 => p + ⟨0, dlt, dlt⟩
    | 1 => p + ⟨0, dlt, -dlt⟩
    | 2 => p + ⟨0, -dlt, -dlt⟩
    | 3 => p + ⟨0, -dlt, dlt⟩

/-- A BGR color triple as passed to `cv2.line`. -/
def Color := ℕ × ℕ × ℕ

/-- Radar-track color `(0,0,255)` (source line 95). -/
def radarColor : Color := (0, 0, 255)

/-- Estimator color `(255,0,0)` (source line 100). -/
def estimateColor : Color := (255, 0, 0)

/-- One `cv2.line(img, pt1, pt2, bgr, lineWidth)` command issued by the
overlay (source line 118). -/
structure Segment where
  pt1 : ℤ × ℤ
  pt2 : ℤ × ℤ
  color : Color
  width : ℕ

/-- The index pairs visited by the two nested `for` loops of
`boxImageOverlay` (source lines 112-113): every ordered pair of the four
columns.  The guard `if pt1 is not pt2:` (line 114) is an object-identity
test, and iterating a numpy matrix allocates a fresh row-view object on
every element access, so the two loop variables are never the same object
— the guard is true for every pair, including the diagonal ones, and
filters nothing. -/
def overlayPairs : List (Fin 4 × Fin 4) :=
  (List.finRange 4).flatMap fun i => (List.finRange 4).map fun j => (i, j)

/-- `RadarVizNode.boxImageOverlay(boxPoints, bgr, img)` (source lines
111-118), as the list of line commands drawn into `img`: for every ordered
pair of columns (see `overlayPairs`) both endpoints are projected and the
segment is drawn when neither projection is the `None` sentinel. -/
noncomputable def boxImageOverlay (cfg : Config) (box : Fin 4 → Vec3)
    (bgr : Color) : List Segment :=
  overlayPairs.filterMap fun ij =>
    match getCameraProjection cfg (box ij.1),
          getCameraProjection cfg (box ij.2) with
    | some q1, some q2 => some ⟨q1, q2, bgr, cfg.lineWidth⟩
    | _, _ => none

/-- The node's mutable state: `self.range`, `self.angle` (two 64-slot
arrays, source lines 53-54) and `self.estRange`, `self.estAngle`
(source lines 56-57, both initially `None`). -/
structure Store where
  range : Fin 64 → ℝ
  angle : Fin 64 → ℝ
  estRange : Option ℝ
  estAngle : Option ℝ

/-- The initial store: `np.zeros((64,1))` twice and two `None`s. -/
def initStore : Store := ⟨fun _ => 0, fun _ => 0, none, none⟩

/-- An inbound `RadarData` message: 64-slot parallel arrays of range
(meters), azimuth (degrees) and a per-channel status byte.  (The script's
`str`-to-`bytearray` branch, lines 69-73, is wire-format decoding and does
not change the byte values.) -/
structure RadarMsg where
  range : Fin 64 → ℝ
  azimuth : Fin 64 → ℝ
  status : Fin 64 → ℕ

/-- `RadarVizNode.radarCallback` (source lines 67-80): for each of the 64
channels, when `status[i] is 3` (CPython interns small ints, so on the byte
values at hand identity coincides with equality to 3) store the message
range and the azimuth converted to radians; otherwise only `range[i]` is
assigned `0.0` — the `else` branch does not touch `angle[i]`, which keeps
its previous value. -/
noncomputable def radarCallback (st : Store) (msg : RadarMsg) : Store :=
  { st with
    range := fun i => if msg.status i = 3 then msg.range i else 0
    angle := fun i =>
      if msg.status i = 3 then msg.azimuth i * Real.pi / 180
      else st.angle i }

/-- `RadarVizNode.rangeCallback` (source lines 63-65): unconditionally
overwrites both estimate fields. -/
def rangeCallback (st : Store) (r a : ℝ) : Store :=
  { st with estRange := some r, estAngle := some a }

/-- One invocation of `boxImageOverlay` scheduled by `imageCallback`:
which box, in which color. -/
structure OverlayCall where
  box : Fin 4 → Vec3
  color : Color

/-- The radar-track overlay work for channel `i` (source lines 91-95):
an overlay call exactly when `self.range[i] > 0`. -/
noncomputable def channelCalls (cfg : Config) (st : Store) (i : Fin 64) :
    List OverlayCall :=
  if 0 < st.range i then
    [⟨getBoxPoints cfg (st.range i) (st.angle i), radarColor⟩]
  else []

/-- The estimator overlay work (source lines 98-100): guarded by
`self.estRange is not None`; `estAngle` is then read, and in every
reachable state it was set together with `estRange` by `rangeCallback`. -/
noncomputable def estimateCalls (cfg : Config) (st : Store) :
    List OverlayCall :=
  match st.estRange, st.estAngle with
  | some r, some a => [⟨getBoxPoints cfg r a, estimateColor⟩]
  | _, _ => []

/-- All overlay invocations of one frame, radar tracks first, then the
estimator box (source lines 91-100). -/
noncomputable def overlayCalls (cfg : Config) (st : Store) :
    List OverlayCall :=
  ((List.finRange 64).flatMap fun i => channelCalls cfg st i)
    ++ estimateCalls cfg st

/-- The complete list of line commands drawn into one frame. -/
noncomputable def render (cfg : Config) (st : Store) : List Segment :=
  (overlayCalls cfg st).flatMap fun c => boxImageOverlay cfg c.box c.color

/-- Outcome of one `imageCallback` invocation. -/
inductive HandlerOutcome where
  | published (segments : List Segment)
  | raisedUnboundLocal

/-- `RadarVizNode.imageCallback` (source lines 83-109).  The `try` block
binds `img` only when `imgmsg_to_cv2` succeeds; the `except CvBridgeError`
handler prints the error and then falls through — it does not `return` —
so when conversion fails every continuation path reaches a use of the
unbound local `img` (line 95, 100 or 103) and the handler raises
`UnboundLocalError` before anything is published.  On success the overlay
segments are drawn and the annotated image is published once. -/
noncomputable def imageCallback (cfg : Config) (st : Store)
    (decoded : Option Unit) : HandlerOutcome :=
  match decoded with
  | none => .raisedUnboundLocal
  | some _ => .published (render cfg st)

@[ext] lemma Mat3.entriesExt {A B : Mat3}
    (h11 : A.m11 = B.m11) (h12 : A.m12 = B.m12) (h13 : A.m13 = B.m13)
    (h21 : A.m21 = B.m21) (h22 : A.m22 = B.m22) (h23 : A.m23 = B.m23)
    (h31 : A.m31 = B.m31) (h32 : A.m32 = B.m32) (h33 : A.m33 = B.m33) :
    A = B := by
  cases A; cases B; simp_all

lemma rotationMatrix_zero : rotationMatrix 0 0 0 = ⟨1,0,0,0,1,0,0,0,1⟩ := by
  simp [rotationMatrix, Mat3.mul]

lemma Rcc_eval : Rcc = ⟨0,1,0, 0,0,1, 1,0,0⟩ := by
  simp [Rcc, rotationMatrix, Mat3.mul]

/-- The perspective divisor `x_[2]` always equals the camera-frame forward
coordinate `r_cp_c[0]`: the third row of `Mint` is `(0,0,1)` and the third
row of `Rcc` is `(1,0,0)`. -/
lemma projVec_z_eq_camForward (cfg : Config) (p : Vec3) :
    (projVec cfg p).z = camForward cfg p := by
  simp [projVec, camForward, Rcc_eval, Mint, Mat3.mul, Mat3.mulVec]

/-- A zero-extrinsics configuration with box width 1 and line width 1. -/
noncomputable def cfg0 : Config := ⟨1, 1, 0, 0, 0, 0, 0⟩

lemma camForward_cfg0 (p : Vec3) : camForward cfg0 p = p.x := by
  simp [camForward, camToPointCam, camRotationCcs, camToSensor, cfg0,
    rotationMatrix_zero, Mat3.transpose, Mat3.mulVec]

@[ext] lemma Store.fieldsExt {s t : Store} (h1 : s.range = t.range)
    (h2 : s.angle = t.angle) (h3 : s.estRange = t.estRange)
    (h4 : s.estAngle = t.estAngle) : s = t := by
  cases s; cases t; simp_all

/-- If channel `i` schedules an overlay call, its stored range is
strictly positive (the converse of the guard on source line 92). -/
lemma channelCalls_ne_nil {cfg : Config} {st : Store} {i : Fin 64}
    (h : channelCalls cfg st i ≠ []) : 0 < st.range i := by
  by_contra hr
  exact h (by simp [channelCalls, hr])

/-- A radar message whose channels all carry status byte 0 (not the valid
code 3), range 5 and azimuth 9 degrees. -/
noncomputable def msgInvalid : RadarMsg := ⟨fun _ => 5, fun _ => 9, fun _ => 0⟩

/-- A store whose angle slots all hold 1 radian. -/
noncomputable def storeAngleOne : Store := ⟨fun _ => 0, fun _ => 1, none, none⟩

/-- A store whose angle slots all hold 2 radians. -/
noncomputable def storeAngleTwo : Store := ⟨fun _ => 0, fun _ => 2, none, none⟩

/-- C1: on a failed image-format conversion the handler publishes nothing —
but it does not terminate cleanly either: it raises `UnboundLocalError`,
because the `except` block (source lines 87-88) only prints and does not
return, leaving `img` unbound for the rest of the callback body. -/
theorem imageCallback_decode_failure_raises :
    ∀ (cfg : Config) (st : Store) (segs : List Segment),
      imageCallback cfg st none = HandlerOutcome.raisedUnboundLocal ∧
      imageCallback cfg st none ≠ HandlerOutcome.published segs := by
  intro cfg st segs
  exact ⟨rfl, by simp [imageCallback]⟩

/-- C3 counterexample: `radarCallback` does not fully overwrite the store.
On a message whose channel-0 status is 0 (≠ 3) and azimuth is 9, the stored
azimuth after the update is the prior store's azimuth (1 or 2 radians), so
the post-update state is not a function of the message alone, and the
stored pair of an invalid channel is not `(0, azimuth)` of the message. -/
theorem radarCallback_angle_depends_on_prior_state :
    (radarCallback storeAngleOne msgInvalid).angle 0 = 1 ∧
    (radarCallback storeAngleTwo msgInvalid).angle 0 = 2 ∧
    (radarCallback storeAngleOne msgInvalid).angle 0 ≠
      (radarCallback storeAngleTwo msgInvalid).angle 0 ∧
    (radarCallback storeAngleOne msgInvalid).angle 0 ≠ msgInvalid.azimuth 0 := by
  refine ⟨?_, ?_, ?_, ?_⟩ <;>
    simp [radarCallback, storeAngleOne, storeAngleTwo, msgInvalid]

/-- C3 (amended): each `radarCallback` sets, for every channel, the stored
range to the message range when the status byte equals 3 and to 0
otherwise; the stored azimuth becomes the message azimuth converted to
radians when the status is 3, and otherwise keeps the prior store's value.
The stored ranges are a function of the message alone. -/
theorem radarCallback_update_characterization :
    ∀ (msg : RadarMsg) (s s' : Store) (i : Fin 64),
      (radarCallback s msg).range i
          = (if msg.status i = 3 then msg.range i else 0) ∧
      (radarCallback s msg).angle i
          = (if msg.status i = 3 then msg.azimuth i * Real.pi / 180
             else s.angle i) ∧
      (radarCallback s msg).range i = (radarCallback s' msg).range i := by
  intro msg s s' i
  exact ⟨rfl, rfl, rfl⟩

/-- C7: after any radar update, a channel whose status byte differs from 3
has stored range 0 whatever range the message carried, schedules no overlay
call on a subsequent frame, and in general a channel is drawn only when its
stored range is strictly positive. -/
theorem invalid_status_zero_range_never_drawn :
    ∀ (msg : RadarMsg) (st : Store) (i : Fin 64),
      msg.status i ≠ 3 →
      (radarCallback st msg).range i = 0 ∧
      (∀ cfg : Config, channelCalls cfg (radarCallback st msg) i = []) ∧
      (∀ (cfg : Config) (st2 : Store) (j : Fin 64),
        channelCalls cfg st2 j ≠ [] → 0 < st2.range j) := by
  intro msg st i h
  have hr : (radarCallback st msg).range i = 0 := by simp [radarCallback, h]
  refine ⟨hr, ?_, fun cfg st2 j => channelCalls_ne_nil⟩
  intro cfg
  simp [channelCalls, hr]

/-- Witness for C7 at a concrete message (status byte 0, range 5) and the
initial store. -/
theorem invalid_status_zero_range_never_drawn_witness :
    msgInvalid.status 0 ≠ 3 ∧
    ((radarCallback initStore msgInvalid).range 0 = 0 ∧
     (∀ cfg : Config, channelCalls cfg (radarCallback initStore msgInvalid) 0 = []) ∧
     (∀ (cfg : Config) (st2 : Store) (j : Fin 64),
        channelCalls cfg st2 j ≠ [] → 0 < st2.range j)) :=
  ⟨by decide, invalid_status_zero_range_never_drawn msgInvalid initStore 0 (by decide)⟩

/-- C9: updating the detection store twice with the same radar message
leaves exactly the state a single update leaves, and a frame rendered from
it is identical. -/
theorem radarCallback_idempotent :
    ∀ (cfg : Config) (msg : RadarMsg) (st : Store),
      radarCallback (radarCallback st msg) msg = radarCallback st msg ∧
      render cfg (radarCallback (radarCallback st msg) msg)
        = render cfg (radarCallback st msg) := by
  intro cfg msg st
  have h : radarCallback (radarCallback st msg) msg = radarCallback st msg := by
    apply Store.fieldsExt
    · rfl
    · funext i
      by_cases hs : msg.status i = 3 <;> simp [radarCallback, hs]
    · rfl
    · rfl
  exact ⟨h, congrArg (render cfg) h⟩

/-- C10: once an estimator message `(r, a)` has been received the estimator
box is scheduled on the frame for every value of `r` — including `r = 0`
and negative `r` — while a radar channel is drawn only when its stored
range is strictly positive. -/
theorem estimate_always_drawn_radar_range_filtered :
    ∀ (cfg : Config) (st : Store) (r a : ℝ),
      (OverlayCall.mk (getBoxPoints cfg r a) estimateColor)
          ∈ overlayCalls cfg (rangeCallback st r a) ∧
      (∀ (cfg2 : Config) (st2 : Store) (i : Fin 64),
        channelCalls cfg2 st2 i ≠ [] → 0 < st2.range i) := by
  intro cfg st r a
  refine ⟨?_, fun _ _ _ => channelCalls_ne_nil⟩
  have he : estimateCalls cfg (rangeCallback st r a)
      = [⟨getBoxPoints cfg r a, estimateColor⟩] := rfl
  unfold overlayCalls
  rw [he]
  exact List.mem_append_right _ (List.mem_singleton.mpr rfl)

@[ext] lemma Vec3.coordsExt {a b : Vec3} (hx : a.x = b.x) (hy : a.y = b.y)
    (hz : a.z = b.z) : a = b := by
  cases a; cases b; simp_all

lemma Vec3.ne_of_ne_y {a b : Vec3} (h : a.y ≠ b.y) : a ≠ b :=
  fun he => h (congrArg Vec3.y he)

lemma Vec3.ne_of_ne_z {a b : Vec3} (h : a.z ≠ b.z) : a ≠ b :=
  fun he => h (congrArg Vec3.z he)

/-- The standard elementary rotation about the x axis (from the spec's
contract for the rotation utility). -/
noncomputable def stdRotX (t : ℝ) : Mat3 :=
  ⟨1, 0, 0,
   0, Real.cos t, -Real.sin t,
   0, Real.sin t, Real.cos t⟩

/-- The standard elementary rotation about the y axis (from the spec's
contract for the rotation utility). -/
noncomputable def stdRotY (t : ℝ) : Mat3 :=
  ⟨Real.cos t, 0, Real.sin t,
   0, 1, 0,
   -Real.sin t, 0, Real.cos t⟩

/-- The standard elementary rotation about the z axis (from the spec's
contract for the rotation utility). -/
noncomputable def stdRotZ (t : ℝ) : Mat3 :=
  ⟨Real.cos t, -Real.sin t, 0,
   Real.sin t, Real.cos t, 0,
   0, 0, 1⟩

/-- C8: `rotationMatrix(rx, ry, rz)` is the composition
`Rz(rz) · Ry(ry) · Rx(rx)` of the standard elementary rotations, in exactly
that order. -/
theorem rotationMatrix_eq_Rz_Ry_Rx :
    ∀ rx ry rz : ℝ,
      rotationMatrix rx ry rz
        = (stdRotZ rz).mul ((stdRotY ry).mul (stdRotX rx)) := by
  intro rx ry rz
  apply Mat3.entriesExt <;>
    simp [rotationMatrix, stdRotX, stdRotY, stdRotZ, Mat3.mul] <;> ring

/-- C6: a point whose camera-frame forward coordinate is negative is never
projected: `getCameraProjection` returns the non-visible sentinel. -/
theorem negative_forward_not_visible :
    ∀ (cfg : Config) (p : Vec3),
      camForward cfg p < 0 → getCameraProjection cfg p = none := by
  intro cfg p h
  simp [getCameraProjection, h]

/-- Witness for C6: the point `(-1, 0, 0)` behind the zero-extrinsics
camera has forward coordinate `-1` and is not visible. -/
theorem negative_forward_not_visible_witness :
    camForward cfg0 ⟨-1, 0, 0⟩ < 0 ∧
    getCameraProjection cfg0 ⟨-1, 0, 0⟩ = none :=
  ⟨by rw [camForward_cfg0]; norm_num,
   negative_forward_not_visible cfg0 ⟨-1, 0, 0⟩
     (by rw [camForward_cfg0]; norm_num)⟩

/-- C4: a point with camera-frame forward coordinate exactly zero passes
the strict `< 0` visibility guard — the projection is not the non-visible
sentinel — and the perspective divisor `x_[2]` it then reaches equals that
forward coordinate, hence is zero: the guard does not make the division
safe. -/
theorem zero_forward_passes_guard_zero_divisor :
    ∀ (cfg : Config) (p : Vec3),
      camForward cfg p = 0 →
      getCameraProjection cfg p ≠ none ∧ (projVec cfg p).z = 0 := by
  intro cfg p h
  constructor
  · simp [getCameraProjection, h]
  · rw [projVec_z_eq_camForward, h]

/-- Witness for C4: the sensor-frame origin seen from the zero-extrinsics
camera has forward coordinate zero, passes the guard, and reaches a zero
divisor. -/
theorem zero_forward_passes_guard_zero_divisor_witness :
    camForward cfg0 ⟨0, 0, 0⟩ = 0 ∧
    (getCameraProjection cfg0 ⟨0, 0, 0⟩ ≠ none ∧
     (projVec cfg0 ⟨0, 0, 0⟩).z = 0) :=
  ⟨by rw [camForward_cfg0],
   zero_forward_passes_guard_zero_divisor cfg0 ⟨0, 0, 0⟩
     (by rw [camForward_cfg0])⟩

/-- The mean of four corner points (the spec's centroid). -/
noncomputable def centroid (c : Fin 4 → Vec3) : Vec3 :=
  ⟨((c 0).x + (c 1).x + (c 2).x + (c 3).x) / 4,
   ((c 0).y + (c 1).y + (c 2).y + (c 3).y) / 4,
   ((c 0).z + (c 1).z + (c 2).z + (c 3).z) / 4⟩

/-- C5: for a nonzero box width, any positive range and any azimuth in
`[0, 2π)`, the four box corners are pairwise distinct and their centroid
is the detection position vector `(r·cos(az), r·sin(az), 0)`. -/
theorem getBoxPoints_distinct_centroid :
    ∀ (cfg : Config) (r az : ℝ),
      cfg.boxWidth ≠ 0 → 0 < r → 0 ≤ az → az < 2 * Real.pi →
      (∀ i j : Fin 4, i ≠ j →
        getBoxPoints cfg r az i ≠ getBoxPoints cfg r az j) ∧
      centroid (getBoxPoints cfg r az)
        = ⟨r * Real.cos az, r * Real.sin az, 0⟩ := by
  intro cfg r az hw hr h0 h2
  have hd : cfg.boxWidth * 0.5 ≠ 0 := mul_ne_zero hw (by norm_num)
  have e0 : getBoxPoints cfg r az 0
      = ⟨r * Real.cos az + 0, r * Real.sin az + cfg.boxWidth * 0.5,
         0 + cfg.boxWidth * 0.5⟩ := rfl
  have e1 : getBoxPoints cfg r az 1
      = ⟨r * Real.cos az + 0, r * Real.sin az + cfg.boxWidth * 0.5,
         0 + -(cfg.boxWidth * 0.5)⟩ := rfl
  have e2 : getBoxPoints cfg r az 2
      = ⟨r * Real.cos az + 0, r * Real.sin az + -(cfg.boxWidth * 0.5),
         0 + -(cfg.boxWidth * 0.5)⟩ := rfl
  have e3 : getBoxPoints cfg r az 3
      = ⟨r * Real.cos az + 0, r * Real.sin az + -(cfg.boxWidth * 0.5),
         0 + cfg.boxWidth * 0.5⟩ := rfl
  constructor
  · have n01 : getBoxPoints cfg r az 0 ≠ getBoxPoints cfg r az 1 :=
      Vec3.ne_of_ne_z (by simp only [e0, e1]; intro hc; exact hd (by linarith))
    have n02 : getBoxPoints cfg r az 0 ≠ getBoxPoints cfg r az 2 :=
      Vec3.ne_of_ne_y (by simp only [e0, e2]; intro hc; exact hd (by linarith))
    have n03 : getBoxPoints cfg r az 0 ≠ getBoxPoints cfg r az 3 :=
      Vec3.ne_of_ne_y (by simp only [e0, e3]; intro hc; exact hd (by linarith))
    have n12 : getBoxPoints cfg r az 1 ≠ getBoxPoints cfg r az 2 :=
      Vec3.ne_of_ne_y (by simp only [e1, e2]; intro hc; exact hd (by linarith))
    have n13 : getBoxPoints cfg r az 1 ≠ getBoxPoints cfg r az 3 :=
      Vec3.ne_of_ne_y (by simp only [e1, e3]; intro hc; exact hd (by linarith))
    have n23 : getBoxPoints cfg r az 2 ≠ getBoxPoints cfg r az 3 :=
      Vec3.ne_of_ne_z (by simp only [e2, e3]; intro hc; exact hd (by linarith))
    intro i j hij
    fin_cases i <;> fin_cases j <;>
      first
        | exact absurd rfl hij
        | exact n01 | exact n02 | exact n03
        | exact n12 | exact n13 | exact n23
        | exact Ne.symm n01 | exact Ne.symm n02 | exact Ne.symm n03
        | exact Ne.symm n12 | exact Ne.symm n13 | exact Ne.symm n23
  · refine Vec3.coordsExt ?_ ?_ ?_ <;>
      simp only [centroid, e0, e1, e2, e3] <;> ring

/-- Witness for C5 at box width 1, range 10, azimuth 0. -/
theorem getBoxPoints_distinct_centroid_witness :
    cfg0.boxWidth ≠ 0 ∧ (0:ℝ) < 10 ∧ (0:ℝ) ≤ 0 ∧ (0:ℝ) < 2 * Real.pi ∧
    ((∀ i j : Fin 4, i ≠ j →
        getBoxPoints cfg0 10 0 i ≠ getBoxPoints cfg0 10 0 j) ∧
     centroid (getBoxPoints cfg0 10 0)
        = ⟨10 * Real.cos 0, 10 * Real.sin 0, 0⟩) := by
  have hw : cfg0.boxWidth ≠ 0 := by simp [cfg0]
  exact ⟨hw, by norm_num, le_refl 0, Real.two_pi_pos,
    getBoxPoints_distinct_centroid cfg0 10 0 hw (by norm_num) (le_refl 0)
      Real.two_pi_pos⟩

/-- With zero extrinsic offsets and zero mounting angles the sensor-frame
point is its own camera-frame vector. -/
lemma camToPointCam_cfg0 (p : Vec3) : camToPointCam cfg0 p = p := by
  unfold camToPointCam camRotationCcs camToSensor
  simp only [cfg0]
  rw [rotationMatrix_zero]
  refine Vec3.coordsExt ?_ ?_ ?_ <;>
    simp [Mat3.transpose, Mat3.mulVec]

lemma Mint_mul_Rcc :
    Mint.mul Rcc
      = ⟨624.481729, 941.087953, 0,
         382.681338, 0, 942.665887,
         1, 0, 0⟩ := by
  rw [Rcc_eval]
  apply Mat3.entriesExt <;> simp [Mint, Mat3.mul]

/-- Truncation of a nonnegative real bracketed by consecutive integers. -/
lemma truncInt_nonneg_eq {x : ℝ} {n : ℤ} (h0 : 0 ≤ x) (h1 : ↑n ≤ x)
    (h2 : x < n + 1) : truncInt x = n := by
  rw [truncInt, if_pos h0]
  exact Int.floor_eq_iff.mpr ⟨h1, h2⟩

/-- Projection through the zero-extrinsics configuration of a point at
unit forward depth: the perspective divide is by 1. -/
lemma getCameraProjection_cfg0_unit (y z : ℝ) :
    getCameraProjection cfg0 ⟨1, y, z⟩
      = some (truncInt (624.481729 + 941.087953 * y),
              truncInt (382.681338 + 942.665887 * z)) := by
  have hf : ¬ camForward cfg0 ⟨1, y, z⟩ < 0 := by
    rw [camForward_cfg0]; norm_num
  have hv : projVec cfg0 ⟨1, y, z⟩
      = ⟨624.481729 + 941.087953 * y, 382.681338 + 942.665887 * z, 1⟩ := by
    unfold projVec
    rw [camToPointCam_cfg0, Mint_mul_Rcc]
    refine Vec3.coordsExt (by simp [Mat3.mulVec]) (by simp [Mat3.mulVec])
      (by simp [Mat3.mulVec])
  unfold getCameraProjection
  rw [if_neg hf, hv]
  simp

/-- Four distinct, all-visible corner points at unit forward depth. -/
def cornersUnit : Fin 4 → Vec3 :=
  fun i =>
    match i with
    | 0 => ⟨1, 0, 0⟩
    | 1 => ⟨1, 1, 0⟩
    | 2 => ⟨1, 1, 1⟩
    | 3 => ⟨1, 0, 1⟩

lemma proj_cornersUnit_0 :
    getCameraProjection cfg0 (cornersUnit 0) = some (624, 382) := by
  show getCameraProjection cfg0 ⟨1, 0, 0⟩ = some (624, 382)
  rw [getCameraProjection_cfg0_unit]
  have h1 : truncInt (624.481729 + 941.087953 * 0) = 624 :=
    truncInt_nonneg_eq (by norm_num) (by norm_num) (by norm_num)
  have h2 : truncInt (382.681338 + 942.665887 * 0) = 382 :=
    truncInt_nonneg_eq (by norm_num) (by norm_num) (by norm_num)
  rw [h1, h2]

lemma proj_cornersUnit_1 :
    getCameraProjection cfg0 (cornersUnit 1) = some (1565, 382) := by
  show getCameraProjection cfg0 ⟨1, 1, 0⟩ = some (1565, 382)
  rw [getCameraProjection_cfg0_unit]
  have h1 : truncInt (624.481729 + 941.087953 * 1) = 1565 :=
    truncInt_nonneg_eq (by norm_num) (by norm_num) (by norm_num)
  have h2 : truncInt (382.681338 + 942.665887 * 0) = 382 :=
    truncInt_nonneg_eq (by norm_num) (by norm_num) (by norm_num)
  rw [h1, h2]

lemma proj_cornersUnit_2 :
    getCameraProjection cfg0 (cornersUnit 2) = some (1565, 1325) := by
  show getCameraProjection cfg0 ⟨1, 1, 1⟩ = some (1565, 1325)
  rw [getCameraProjection_cfg0_unit]
  have h1 : truncInt (624.481729 + 941.087953 * 1) = 1565 :=
    truncInt_nonneg_eq (by norm_num) (by norm_num) (by norm_num)
  have h2 : truncInt (382.681338 + 942.665887 * 1) = 1325 :=
    truncInt_nonneg_eq (by norm_num) (by norm_num) (by norm_num)
  rw [h1, h2]

lemma proj_cornersUnit_3 :
    getCameraProjection cfg0 (cornersUnit 3) = some (624, 1325) := by
  show getCameraProjection cfg0 ⟨1, 0, 1⟩ = some (624, 1325)
  rw [getCameraProjection_cfg0_unit]
  have h1 : truncInt (624.481729 + 941.087953 * 0) = 624 :=
    truncInt_nonneg_eq (by norm_num) (by norm_num) (by norm_num)
  have h2 : truncInt (382.681338 + 942.665887 * 1) = 1325 :=
    truncInt_nonneg_eq (by norm_num) (by norm_num) (by norm_num)
  rw [h1, h2]

/-- C2: the overlay draws a degenerate self-pair segment.  On four
distinct corners, all visible at pairwise-distinct pixels (the last four
conjuncts), the drawn command list contains the segment from corner 0's
pixel `(624, 382)` to itself — a self-pair, which the claim says is never
drawn.  The `pt1 is not pt2` identity test of the source filters nothing
because every numpy row iteration yields a fresh view object. -/
theorem boxImageOverlay_draws_self_segment :
    Segment.mk (624, 382) (624, 382) radarColor 1
        ∈ boxImageOverlay cfg0 cornersUnit radarColor ∧
    getCameraProjection cfg0 (cornersUnit 0) = some (624, 382) ∧
    getCameraProjection cfg0 (cornersUnit 1) = some (1565, 382) ∧
    getCameraProjection cfg0 (cornersUnit 2) = some (1565, 1325) ∧
    getCameraProjection cfg0 (cornersUnit 3) = some (624, 1325) := by
  refine ⟨?_, proj_cornersUnit_0, proj_cornersUnit_1,
    proj_cornersUnit_2, proj_cornersUnit_3⟩
  unfold boxImageOverlay
  apply List.mem_filterMap.mpr
  refine ⟨((0 : Fin 4), (0 : Fin 4)), by decide, ?_⟩
  rw [show getCameraProjection cfg0 (cornersUnit ((0 : Fin 4), (0 : Fin 4)).1)
        = some ((624 : ℤ), (382 : ℤ)) from proj_cornersUnit_0]
  rfl
